import Mathlib

/-!
Verification development for the Bananas task-queue client SDK
(src/sdk/python/bananas).  The Python modules models.py, queue.py,
result_backend.py and client.py are shallowly embedded below: pure
methods become Lean functions, Redis becomes an explicit store state,
wall-clock time and uuid generation become explicit parameters, and
raised exceptions become Except values.  Store values are modelled at
the decoded-JSON level (the json.dumps / json.loads byte transport is
an external library assumed to be a faithful bijection on
JSON-compatible values); numbers inside payloads are modelled as
integers.
-/

namespace Bananas

instance {ε α : Type} [DecidableEq ε] [DecidableEq α] :
    DecidableEq (Except ε α) := fun a b =>
  match a, b with
  | .ok x, .ok y =>
      if h : x = y then .isTrue (by rw [h])
      else .isFalse (fun hc => by cases hc; exact h rfl)
  | .error x, .error y =>
      if h : x = y then .isTrue (by rw [h])
      else .isFalse (fun hc => by cases hc; exact h rfl)
  | .ok _, .error _ => .isFalse (fun hc => Except.noConfusion hc)
  | .error _, .ok _ => .isFalse (fun hc => Except.noConfusion hc)

mutual

/-- JSON-compatible Python value (payload / result entries).  Mirrors the
dynamically typed values that models.py stores in job payloads and
results: None, bool, int, str, list, dict. -/
inductive PyValue where
  | null : PyValue
  | bool (b : Bool) : PyValue
  | int (n : Int) : PyValue
  | str (s : String) : PyValue
  | list (xs : PyList) : PyValue
  | dict (fields : PyDict) : PyValue
deriving DecidableEq, Repr

/-- Python list of values. -/
inductive PyList where
  | nil : PyList
  | cons (v : PyValue) (t : PyList) : PyList
deriving DecidableEq, Repr

/-- Python dict with string keys, in insertion order (keys unique). -/
inductive PyDict where
  | nil : PyDict
  | cons (k : String) (v : PyValue) (t : PyDict) : PyDict
deriving DecidableEq, Repr

end

/-- Emptiness test for a Python list. -/
def PyList.isEmpty : PyList → Bool
  | .nil => true
  | .cons _ _ => false

/-- Emptiness test for a Python dict. -/
def PyDict.isEmpty : PyDict → Bool
  | .nil => true
  | .cons _ _ _ => false

/-- Dictionary lookup, modelling data.get(key) / data[key] on a dict with
unique keys. -/
def PyDict.lookup : PyDict → String → Option PyValue
  | .nil, _ => none
  | .cons k v t, key => if k = key then some v else t.lookup key

/-- Insertion-ordered key list of a dict. -/
def PyDict.keys : PyDict → List String
  | .nil => []
  | .cons k _ t => k :: t.keys

/-- Python truthiness of a value, as used by statements such as
`if result.result:` and `if data.get("scheduled_for"):`. -/
def PyValue.truthy : PyValue → Bool
  | .null => false
  | .bool b => b
  | .int n => n != 0
  | .str s => s != ""
  | .list xs => !xs.isEmpty
  | .dict fs => !fs.isEmpty

/-- Truthiness of an Optional value (None is falsy, otherwise Python
truthiness of the wrapped value). -/
def pyOptTruthy : Option PyValue → Bool
  | none => false
  | some v => v.truthy

/-- Projects a string value, modelling that this embedding gives the
record fields their static Python annotation types. -/
def PyValue.asStr : PyValue → Option String
  | .str s => some s
  | _ => none

/-- Projects a dict value. -/
def PyValue.asDict : PyValue → Option PyDict
  | .dict d => some d
  | _ => none

/-- Projects an integer value. -/
def PyValue.asInt : PyValue → Option Int
  | .int n => some n
  | _ => none

/-- JobStatus enum from models.py. -/
inductive JobStatus where
  | pending | processing | completed | failed | scheduled
deriving DecidableEq, Repr

/-- Lowercase wire tag of a status (the .value of the Python enum). -/
def JobStatus.value : JobStatus → String
  | .pending => "pending"
  | .processing => "processing"
  | .completed => "completed"
  | .failed => "failed"
  | .scheduled => "scheduled"

/-- Models the JobStatus(s) enum call: unknown tags raise, giving none. -/
def JobStatus.ofValue : String → Option JobStatus
  | "pending" => some .pending
  | "processing" => some .processing
  | "completed" => some .completed
  | "failed" => some .failed
  | "scheduled" => some .scheduled
  | _ => none

/-- JobPriority enum from models.py. -/
inductive JobPriority where
  | high | normal | low
deriving DecidableEq, Repr

/-- Lowercase wire tag of a priority. -/
def JobPriority.value : JobPriority → String
  | .high => "high"
  | .normal => "normal"
  | .low => "low"

/-- Models the JobPriority(s) enum call: unknown tags raise, giving none. -/
def JobPriority.ofValue : String → Option JobPriority
  | "high" => some .high
  | "normal" => some .normal
  | "low" => some .low
  | _ => none

/-- Aware UTC datetime as produced by datetime.now(timezone.utc); the
code base only ever creates and parses aware UTC datetimes.  Field
ranges follow the Python datetime invariants. -/
structure PyDateTime where
  year : Fin 10000
  month : Fin 13
  day : Fin 32
  hour : Fin 24
  minute : Fin 60
  second : Fin 60
  microsecond : Fin 1000000
deriving DecidableEq, Repr

/-- Decimal digit character for n mod 10. -/
def dchar (n : Nat) : Char := Char.ofNat (48 + n % 10)

/-- Numeric value of a digit character. -/
def digitVal (c : Char) : Nat := c.toNat - 48

/-- Two-digit zero-padded decimal rendering. -/
def pad2 (n : Nat) : List Char := [dchar (n / 10), dchar n]

/-- Four-digit zero-padded decimal rendering. -/
def pad4 (n : Nat) : List Char :=
  [dchar (n / 1000), dchar (n / 100), dchar (n / 10), dchar n]

/-- Six-digit zero-padded decimal rendering. -/
def pad6 (n : Nat) : List Char :=
  [dchar (n / 100000), dchar (n / 10000), dchar (n / 1000),
   dchar (n / 100), dchar (n / 10), dchar n]

/-- Character list of datetime.isoformat() for an aware UTC datetime:
YYYY-MM-DDTHH:MM:SS[.ffffff]+00:00, the fraction present exactly when
microsecond is nonzero. -/
def isoformatChars (d : PyDateTime) : List Char :=
  pad4 d.year.val ++ ['-'] ++ pad2 d.month.val ++ ['-'] ++ pad2 d.day.val ++
  ['T'] ++ pad2 d.hour.val ++ [':'] ++ pad2 d.minute.val ++ [':'] ++
  pad2 d.second.val ++
  (if d.microsecond.val = 0 then [] else '.' :: pad6 d.microsecond.val) ++
  ['+', '0', '0', ':', '0', '0']

/-- Models datetime.isoformat() restricted to aware UTC datetimes. -/
def isoformat (d : PyDateTime) : String := String.mk (isoformatChars d)

/-- Gregorian leap-year test, as in the Python calendar. -/
def isLeap (y : Nat) : Bool := y % 4 = 0 && (y % 100 != 0 || y % 400 = 0)

/-- Number of days in a month, as validated by the Python datetime
constructor. -/
def daysInMonth (y m : Nat) : Nat :=
  if m = 2 then (if isLeap y then 29 else 28)
  else if m = 4 ∨ m = 6 ∨ m = 9 ∨ m = 11 then 30
  else 31

theorem daysInMonth_le (y m : Nat) : daysInMonth y m ≤ 31 := by
  unfold daysInMonth
  split
  · split <;> omega
  · split <;> omega

/-- Range-checked datetime construction, mirroring the validation the
Python datetime constructor performs (and hence what
datetime.fromisoformat accepts). -/
def mkDT (y mo dd h mi s us : Nat) : Option PyDateTime :=
  if hy : 1 ≤ y ∧ y < 10000 then
    if hm : 1 ≤ mo ∧ mo ≤ 12 then
      if hd : 1 ≤ dd ∧ dd ≤ daysInMonth y mo then
        if hh : h < 24 then
          if hmi : mi < 60 then
            if hs : s < 60 then
              if hu : us < 1000000 then
                some ⟨⟨y, hy.2⟩, ⟨mo, by omega⟩,
                      ⟨dd, by have := daysInMonth_le y mo; omega⟩,
                      ⟨h, hh⟩, ⟨mi, hmi⟩, ⟨s, hs⟩, ⟨us, hu⟩⟩
              else none
            else none
          else none
        else none
      else none
    else none
  else none

/-- Parses a two-digit decimal number. -/
def d2 (a b : Char) : Option Nat :=
  if a.isDigit && b.isDigit then some (10 * digitVal a + digitVal b) else none

/-- Parses a four-digit decimal number. -/
def d4 (a b c e : Char) : Option Nat :=
  if a.isDigit && b.isDigit && c.isDigit && e.isDigit then
    some (1000 * digitVal a + 100 * digitVal b + 10 * digitVal c + digitVal e)
  else none

/-- Parses a six-digit decimal number. -/
def d6 (a b c e f g : Char) : Option Nat :=
  if a.isDigit && b.isDigit && c.isDigit && e.isDigit && f.isDigit &&
     g.isDigit then
    some (100000 * digitVal a + 10000 * digitVal b + 1000 * digitVal c +
          100 * digitVal e + 10 * digitVal f + digitVal g)
  else none

/-- Parses the optional fractional-seconds part followed by the UTC
offset, returning the microsecond count. -/
def parseFracOffset : List Char → Option Nat
  | ['+', '0', '0', ':', '0', '0'] => some 0
  | '.' :: a :: b :: c :: e :: f :: g :: ['+', '0', '0', ':', '0', '0'] =>
      d6 a b c e f g
  | _ => none

/-- Models datetime.fromisoformat restricted to the aware-UTC ISO-8601
strings this code base produces and exchanges. -/
def parseIsoChars : List Char → Option PyDateTime
  | y1 :: y2 :: y3 :: y4 :: '-' :: m1 :: m2 :: '-' :: a1 :: a2 :: 'T' ::
    h1 :: h2 :: ':' :: n1 :: n2 :: ':' :: s1 :: s2 :: rest => do
      let y ← d4 y1 y2 y3 y4
      let mo ← d2 m1 m2
      let dd ← d2 a1 a2
      let h ← d2 h1 h2
      let mi ← d2 n1 n2
      let s ← d2 s1 s2
      let us ← parseFracOffset rest
      mkDT y mo dd h mi s us
  | _ => none

/-- Models str.replace("Z", "+00:00") as applied to timestamp fields in
from_dict. -/
def replaceZ : List Char → List Char
  | [] => []
  | c :: cs =>
      if c = 'Z' then '+' :: '0' :: '0' :: ':' :: '0' :: '0' :: replaceZ cs
      else c :: replaceZ cs

/-- Models datetime.fromisoformat(s.replace("Z", "+00:00")) as used by
Job.from_dict and JobResult.from_dict; none models the raised
ValueError. -/
def parseTimestamp (s : String) : Option PyDateTime :=
  parseIsoChars (replaceZ s.data)

/-- Datetimes whose calendar fields the Python datetime constructor
accepts (the Fin types already bound hour, minute, second and
microsecond). -/
def pyValidDT (d : PyDateTime) : Prop :=
  1 ≤ d.year.val ∧ 1 ≤ d.month.val ∧ d.month.val ≤ 12 ∧
  1 ≤ d.day.val ∧ d.day.val ≤ daysInMonth d.year.val d.month.val

instance (d : PyDateTime) : Decidable (pyValidDT d) := by
  unfold pyValidDT; infer_instance

theorem dchar_isDigit (k : Nat) : (dchar k).isDigit = true := by
  have h : k % 10 < 10 := Nat.mod_lt _ (by omega)
  have hall : ∀ r, r < 10 → (Char.ofNat (48 + r)).isDigit = true := by decide
  simpa [dchar] using hall (k % 10) h

theorem dchar_val (k : Nat) : digitVal (dchar k) = k % 10 := by
  have h : k % 10 < 10 := Nat.mod_lt _ (by omega)
  have hall : ∀ r, r < 10 → digitVal (Char.ofNat (48 + r)) = r := by decide
  simpa [dchar] using hall (k % 10) h

theorem dchar_ne_Z (k : Nat) : dchar k ≠ 'Z' := by
  have h : k % 10 < 10 := Nat.mod_lt _ (by omega)
  have hall : ∀ r, r < 10 → Char.ofNat (48 + r) ≠ 'Z' := by decide
  simpa [dchar] using hall (k % 10) h

theorem d2_pad2 (n : Nat) (h : n < 100) :
    d2 (dchar (n / 10)) (dchar n) = some n := by
  simp [d2, dchar_isDigit, dchar_val]
  omega

theorem d4_pad4 (n : Nat) (h : n < 10000) :
    d4 (dchar (n / 1000)) (dchar (n / 100)) (dchar (n / 10)) (dchar n) =
      some n := by
  simp [d4, dchar_isDigit, dchar_val]
  omega

theorem d6_pad6 (n : Nat) (h : n < 1000000) :
    d6 (dchar (n / 100000)) (dchar (n / 10000)) (dchar (n / 1000))
       (dchar (n / 100)) (dchar (n / 10)) (dchar n) = some n := by
  simp [d6, dchar_isDigit, dchar_val]
  omega

theorem replaceZ_append (l1 l2 : List Char) :
    replaceZ (l1 ++ l2) = replaceZ l1 ++ replaceZ l2 := by
  induction l1 with
  | nil => rfl
  | cons c cs ih =>
      simp only [List.cons_append, replaceZ]
      split <;> simp [ih]

theorem replaceZ_isoformatChars (d : PyDateTime) :
    replaceZ (isoformatChars d) = isoformatChars d := by
  by_cases hus : d.microsecond.val = 0 <;>
    simp [isoformatChars, pad4, pad2, pad6, hus, replaceZ_append, replaceZ,
      dchar_ne_Z]

theorem mkDT_eq (d : PyDateTime) (h : pyValidDT d) :
    mkDT d.year.val d.month.val d.day.val d.hour.val d.minute.val d.second.val
      d.microsecond.val = some d := by
  obtain ⟨hy, hm1, hm2, hd1, hd2⟩ := h
  unfold mkDT
  rw [dif_pos (And.intro hy d.year.isLt), dif_pos (And.intro hm1 hm2),
      dif_pos (And.intro hd1 hd2), dif_pos d.hour.isLt, dif_pos d.minute.isLt,
      dif_pos d.second.isLt, dif_pos d.microsecond.isLt]

theorem parse_isoformat (d : PyDateTime) (h : pyValidDT d) :
    parseIsoChars (isoformatChars d) = some d := by
  have hv := h
  have hmlt : d.month.val < 100 := by have := d.month.isLt; omega
  have hdlt : d.day.val < 100 := by have := d.day.isLt; omega
  have hhlt : d.hour.val < 100 := by have := d.hour.isLt; omega
  have hmilt : d.minute.val < 100 := by have := d.minute.isLt; omega
  have hslt : d.second.val < 100 := by have := d.second.isLt; omega
  by_cases hus : d.microsecond.val = 0
  · have hiso : isoformatChars d =
        pad4 d.year.val ++ ['-'] ++ pad2 d.month.val ++ ['-'] ++
        pad2 d.day.val ++ ['T'] ++ pad2 d.hour.val ++ [':'] ++
        pad2 d.minute.val ++ [':'] ++ pad2 d.second.val ++
        ['+', '0', '0', ':', '0', '0'] := by
      simp [isoformatChars, hus]
    rw [hiso]
    simp only [pad4, pad2, List.cons_append, List.nil_append, List.append_nil]
    simp only [parseIsoChars, d4_pad4 d.year.val d.year.isLt,
      d2_pad2 d.month.val hmlt, d2_pad2 d.day.val hdlt,
      d2_pad2 d.hour.val hhlt, d2_pad2 d.minute.val hmilt,
      d2_pad2 d.second.val hslt, parseFracOffset]
    have h0 : mkDT d.year.val d.month.val d.day.val d.hour.val d.minute.val
        d.second.val 0 = some d := by
      rw [← hus]; exact mkDT_eq d hv
    exact h0
  · simp only [isoformatChars, if_neg hus]
    simp only [pad4, pad2, pad6, List.cons_append, List.nil_append,
      List.append_nil]
    simp only [parseIsoChars, d4_pad4 d.year.val d.year.isLt,
      d2_pad2 d.month.val hmlt, d2_pad2 d.day.val hdlt,
      d2_pad2 d.hour.val hhlt, d2_pad2 d.minute.val hmilt,
      d2_pad2 d.second.val hslt, parseFracOffset,
      d6_pad6 d.microsecond.val d.microsecond.isLt]
    exact mkDT_eq d hv

theorem parseTimestamp_isoformat (d : PyDateTime) (h : pyValidDT d) :
    parseTimestamp (isoformat d) = some d := by
  unfold parseTimestamp isoformat
  rw [show (String.mk (isoformatChars d)).data = isoformatChars d from rfl,
      replaceZ_isoformatChars d, parse_isoformat d h]

/-- Opening curly brace character. -/
def lbrace : Char := Char.ofNat 123

/-- Closing curly brace character. -/
def rbrace : Char := Char.ofNat 125

/-- Drops leading JSON whitespace. -/
def skipWs (cs : List Char) : List Char :=
  cs.dropWhile (fun c => " \t\n\r".data.contains c)

/-- Parses the body of a JSON string after the opening quote, handling
the common escape sequences (the \uXXXX form is not modelled). -/
def parseStr : List Char → Option (List Char × List Char)
  | [] => none
  | '"' :: rest => some ([], rest)
  | '\\' :: e :: rest =>
      let esc : Option Char :=
        if e = '"' then some '"'
        else if e = '\\' then some '\\'
        else if e = '/' then some '/'
        else if e = 'n' then some '\n'
        else if e = 't' then some '\t'
        else if e = 'r' then some '\r'
        else if e = 'b' then some (Char.ofNat 8)
        else if e = 'f' then some (Char.ofNat 12)
        else none
      match esc with
      | some c => (parseStr rest).map (fun p => (c :: p.1, p.2))
      | none => none
  | c :: rest => (parseStr rest).map (fun p => (c :: p.1, p.2))

/-- Parses a run of decimal digits. -/
def parseNatChars (cs : List Char) : Option (Nat × List Char) :=
  let ds := cs.takeWhile Char.isDigit
  if ds.isEmpty then none
  else some (ds.foldl (fun a c => 10 * a + digitVal c) 0,
             cs.dropWhile Char.isDigit)

mutual

/-- Fueled recursive-descent JSON value reader (models json.loads;
numbers are modelled as integers). -/
def parseJ : Nat → List Char → Option (PyValue × List Char)
  | 0, _ => none
  | fu + 1, cs =>
    match skipWs cs with
    | [] => none
    | 'n' :: 'u' :: 'l' :: 'l' :: rest => some (.null, rest)
    | 't' :: 'r' :: 'u' :: 'e' :: rest => some (.bool true, rest)
    | 'f' :: 'a' :: 'l' :: 's' :: 'e' :: rest => some (.bool false, rest)
    | '"' :: rest =>
        match parseStr rest with
        | some (s, r) => some (.str (String.mk s), r)
        | none => none
    | '[' :: rest =>
        (match skipWs rest with
         | ']' :: r2 => some (.list .nil, r2)
         | cs2 =>
             match parseJ fu cs2 with
             | some (v, r2) =>
                 match parseArrTail fu r2 with
                 | some (tl, r3) => some (.list (.cons v tl), r3)
                 | none => none
             | none => none)
    | '-' :: rest =>
        match parseNatChars rest with
        | some (n, r) => some (.int (-(n : Int)), r)
        | none => none
    | c :: rest =>
        if c = lbrace then
          match skipWs rest with
          | c2 :: r2 =>
              if c2 = rbrace then some (.dict .nil, r2)
              else
                match parseField fu (c2 :: r2) with
                | some (k, v, r3) =>
                    match parseObjTail fu r3 with
                    | some (tl, r4) => some (.dict (.cons k v tl), r4)
                    | none => none
                | none => none
          | [] => none
        else if c.isDigit then
          match parseNatChars (c :: rest) with
          | some (n, r) => some (.int (n : Int), r)
          | none => none
        else none

/-- Parses one key/value pair of a JSON object. -/
def parseField : Nat → List Char → Option (String × PyValue × List Char)
  | 0, _ => none
  | fu + 1, cs =>
      match cs with
      | '"' :: r =>
          match parseStr r with
          | some (k, r2) =>
              (match skipWs r2 with
               | ':' :: r3 =>
                   match parseJ fu r3 with
                   | some (v, r4) => some (String.mk k, v, r4)
                   | none => none
               | _ => none)
          | none => none
      | _ => none

/-- Parses the continuation of a JSON array after one element. -/
def parseArrTail : Nat → List Char → Option (PyList × List Char)
  | 0, _ => none
  | fu + 1, cs =>
      match skipWs cs with
      | ']' :: r => some (.nil, r)
      | ',' :: r =>
          match parseJ fu r with
          | some (v, r2) =>
              match parseArrTail fu r2 with
              | some (tl, r3) => some (.cons v tl, r3)
              | none => none
          | none => none
      | _ => none

/-- Parses the continuation of a JSON object after one pair. -/
def parseObjTail : Nat → List Char → Option (PyDict × List Char)
  | 0, _ => none
  | fu + 1, cs =>
      match skipWs cs with
      | c :: r =>
          if c = rbrace then some (.nil, r)
          else if c = ',' then
            match parseField fu (skipWs r) with
            | some (k, v, r2) =>
                match parseObjTail fu r2 with
                | some (tl, r3) => some (.cons k v tl, r3)
                | none => none
            | none => none
          else none
      | [] => none

end

/-- Models json.loads on a whole document: parses one value and rejects
trailing garbage; none models the raised JSONDecodeError. -/
def jsonLoads (s : String) : Option PyValue :=
  match parseJ (s.data.length + 2) s.data with
  | some (v, rest) => if (skipWs rest).isEmpty then some v else none
  | none => none

/-- Escapes one character for JSON string output (control characters
beyond the common ones and the non-ascii \uXXXX form are not
modelled). -/
def escChar (c : Char) : List Char :=
  if c = '"' then ['\\', '"']
  else if c = '\\' then ['\\', '\\']
  else if c = '\n' then ['\\', 'n']
  else if c = '\t' then ['\\', 't']
  else if c = '\r' then ['\\', 'r']
  else [c]

/-- Renders a JSON string literal. -/
def dumpStr (s : String) : List Char :=
  '"' :: s.data.foldr (fun c acc => escChar c ++ acc) ['"']

mutual

/-- Renders a value the way json.dumps does with its default
separators. -/
def dumpV : PyValue → List Char
  | .null => "null".data
  | .bool true => "true".data
  | .bool false => "false".data
  | .int n => (toString n).data
  | .str s => dumpStr s
  | .list xs => '[' :: dumpArr xs ++ [']']
  | .dict fs => lbrace :: dumpObj fs ++ [rbrace]

/-- Renders array elements separated by comma-space. -/
def dumpArr : PyList → List Char
  | .nil => []
  | .cons v .nil => dumpV v
  | .cons v t => dumpV v ++ ',' :: ' ' :: dumpArr t

/-- Renders object pairs separated by comma-space with colon-space
between key and value. -/
def dumpObj : PyDict → List Char
  | .nil => []
  | .cons k v .nil => dumpStr k ++ ':' :: ' ' :: dumpV v
  | .cons k v t => dumpStr k ++ ':' :: ' ' :: dumpV v ++ ',' :: ' ' :: dumpObj t

end

/-- Models json.dumps (restricted to the value forms of this model). -/
def jsonDumps (v : PyValue) : String := String.mk (dumpV v)

/-- Models int(x) applied to a decoded decimal string: sign and digits
with surrounding whitespace (none models the raised ValueError). -/
def strToInt (s : String) : Option Int :=
  match skipWs s.data with
  | '-' :: ds =>
      match parseNatChars ds with
      | some (n, rest) => if (skipWs rest).isEmpty then some (-(n : Int)) else none
      | none => none
  | '+' :: ds =>
      match parseNatChars ds with
      | some (n, rest) => if (skipWs rest).isEmpty then some ((n : Int)) else none
      | none => none
  | ds =>
      match parseNatChars ds with
      | some (n, rest) => if (skipWs rest).isEmpty then some ((n : Int)) else none
      | none => none

/-- Models the int(...) conversion in JobResult.from_dict; none models
the raised TypeError / ValueError. -/
def pyInt : PyValue → Option Int
  | .int n => some n
  | .bool b => some (if b then 1 else 0)
  | .str s => strToInt s
  | _ => none

/-- Job value object from models.py (the state after Job.__init__). -/
structure Job where
  id : String
  name : String
  description : String
  payload : PyDict
  status : JobStatus
  priority : JobPriority
  created_at : PyDateTime
  updated_at : PyDateTime
  scheduled_for : Option PyDateTime
  attempts : Int
  max_retries : Int
  error : String
  routing_key : String
deriving DecidableEq, Repr

/-- Models Job.__init__: freshId stands for the generated str(uuid4())
and now for datetime.now(timezone.utc); the `or` defaults of the source
are reproduced (a None or empty job_id is replaced by freshId, missing
timestamps default to now). -/
def mkJob (freshId : String) (now : PyDateTime) (name : String)
    (payload : PyDict) (priority : JobPriority) (description : String)
    (job_id : Option String) (status : JobStatus)
    (created_at updated_at scheduled_for : Option PyDateTime)
    (attempts max_retries : Int) (error routing_key : String) : Job :=
  { id := match job_id with
      | some s => if s = "" then freshId else s
      | none => freshId,
    name := name, description := description, payload := payload,
    status := status, priority := priority,
    created_at := created_at.getD now, updated_at := updated_at.getD now,
    scheduled_for := scheduled_for, attempts := attempts,
    max_retries := max_retries, error := error, routing_key := routing_key }

/-- Models Job.to_dict: the twelve unconditional fields in source order,
then scheduled_for only when it is set. -/
def Job.to_dict (j : Job) : PyDict :=
  .cons "id" (.str j.id) (.cons "name" (.str j.name)
    (.cons "description" (.str j.description)
      (.cons "payload" (.dict j.payload)
        (.cons "status" (.str j.status.value)
          (.cons "priority" (.str j.priority.value)
            (.cons "created_at" (.str (isoformat j.created_at))
              (.cons "updated_at" (.str (isoformat j.updated_at))
                (.cons "attempts" (.int j.attempts)
                  (.cons "max_retries" (.int j.max_retries)
                    (.cons "error" (.str j.error)
                      (.cons "routing_key" (.str j.routing_key)
                        (match j.scheduled_for with
                         | some t =>
                             .cons "scheduled_for" (.str (isoformat t)) .nil
                         | none => .nil))))))))))))

/-- Shared decoding of an optional timestamp field guarded by Python
truthiness, as both from_dict methods do with scheduled_for and
completed_at. -/
def optTimestampField (data : PyDict) (key : String) :
    Option (Option PyDateTime) :=
  match data.lookup key with
  | some v =>
      if v.truthy then
        match v with
        | .str s => (parseTimestamp s).map some
        | _ => none
      else some none
  | none => some none

/-- Reads a required string field (data[k] projected to its annotated
string type). -/
def reqStr (data : PyDict) (k : String) : Option String :=
  (data.lookup k).bind PyValue.asStr

/-- Models Job.from_dict (composed with the Job constructor); none
models any exception raised while decoding.  Fields are projected to
their annotated Python types. -/
def Job.from_dict (freshId : String) (now : PyDateTime) (data : PyDict) :
    Option Job :=
  match optTimestampField data "scheduled_for" with
  | none => none
  | some sched =>
  match reqStr data "name" with
  | none => none
  | some name =>
  match (data.lookup "payload").bind PyValue.asDict with
  | none => none
  | some payload =>
  match (reqStr data "priority").bind JobPriority.ofValue with
  | none => none
  | some priority =>
  match ((data.lookup "description").getD (.str "")).asStr with
  | none => none
  | some description =>
  match reqStr data "id" with
  | none => none
  | some jid =>
  match (reqStr data "status").bind JobStatus.ofValue with
  | none => none
  | some status =>
  match (reqStr data "created_at").bind parseTimestamp with
  | none => none
  | some created =>
  match (reqStr data "updated_at").bind parseTimestamp with
  | none => none
  | some updated =>
  match ((data.lookup "attempts").getD (.int 0)).asInt with
  | none => none
  | some attempts =>
  match ((data.lookup "max_retries").getD (.int 3)).asInt with
  | none => none
  | some max_retries =>
  match ((data.lookup "error").getD (.str "")).asStr with
  | none => none
  | some error =>
  match ((data.lookup "routing_key").getD (.str "")).asStr with
  | none => none
  | some routing_key =>
  some (mkJob freshId now name payload priority description (some jid) status
    (some created) (some updated) sched attempts max_retries error routing_key)

/-- JobResult value object from models.py.  The result field is
Optional[Dict] by annotation but dynamically can hold a raw string
after the double-decode fallback, so it is modelled as an optional
value. -/
structure JobResult where
  job_id : String
  status : JobStatus
  result : Option PyValue
  error : String
  completed_at : PyDateTime
  duration_ms : Int
deriving DecidableEq, Repr

/-- Models JobResult.__init__ (completed_at defaults to now). -/
def mkJobResult (now : PyDateTime) (job_id : String) (status : JobStatus)
    (result : Option PyValue) (error : String)
    (completed_at : Option PyDateTime) (duration_ms : Int) : JobResult :=
  { job_id := job_id, status := status, result := result, error := error,
    completed_at := completed_at.getD now, duration_ms := duration_ms }

/-- Models JobResult.is_success. -/
def JobResult.is_success (r : JobResult) : Bool := r.status == .completed

/-- Models JobResult.is_failed. -/
def JobResult.is_failed (r : JobResult) : Bool := r.status == .failed

/-- Models JobResult.to_dict: four unconditional fields, then result
only when truthy, then error only when non-empty. -/
def JobResult.to_dict (r : JobResult) : PyDict :=
  .cons "job_id" (.str r.job_id) (.cons "status" (.str r.status.value)
    (.cons "completed_at" (.str (isoformat r.completed_at))
      (.cons "duration_ms" (.int r.duration_ms)
        (let tail : PyDict :=
           if r.error != "" then .cons "error" (.str r.error) .nil else .nil
         match r.result with
         | some v => if v.truthy then .cons "result" v tail else tail
         | none => tail))))

/-- Models the best-effort double-decode of a string-typed result in
JobResult.from_dict: a truthy string is fed through json.loads once and
kept raw if that fails. -/
def resultFallback (v0 : Option PyValue) : Option PyValue :=
  match v0 with
  | some (.str s) => if s != "" then some ((jsonLoads s).getD (.str s)) else v0
  | _ => v0

/-- Models JobResult.from_dict (composed with the constructor); none
models any raised decoding exception. -/
def JobResult.from_dict (now : PyDateTime) (data : PyDict) :
    Option JobResult :=
  match optTimestampField data "completed_at" with
  | none => none
  | some completed =>
  match reqStr data "job_id" with
  | none => none
  | some jid =>
  match (reqStr data "status").bind JobStatus.ofValue with
  | none => none
  | some status =>
  match ((data.lookup "error").getD (.str "")).asStr with
  | none => none
  | some error =>
  match pyInt ((data.lookup "duration_ms").getD (.int 0)) with
  | none => none
  | some duration_ms =>
  some (mkJobResult now jid status (resultFallback (data.lookup "result"))
    error completed duration_ms)

theorem isoformat_ne_empty (d : PyDateTime) : isoformat d ≠ "" := by
  intro hcontra
  have h2 : isoformatChars d = ([] : List Char) := congrArg String.data hcontra
  simp [isoformatChars, pad4] at h2

theorem truthy_isoformat (d : PyDateTime) :
    (PyValue.str (isoformat d)).truthy = true := by
  simp [PyValue.truthy, isoformat_ne_empty d]

theorem statusOfValue_value (s : JobStatus) :
    JobStatus.ofValue (JobStatus.value s) = some s := by
  cases s <;> rfl

theorem priorityOfValue_value (p : JobPriority) :
    JobPriority.ofValue (JobPriority.value p) = some p := by
  cases p <;> rfl

/-- Round trip of the Job encoding at the structured level: decode after
encode is the identity for every constructible Job (a constructed Job
always has a non-empty id) with calendar-valid timestamps. -/
theorem job_from_to_dict (freshId : String) (now : PyDateTime) (j : Job)
    (hid : j.id ≠ "") (hca : pyValidDT j.created_at)
    (hua : pyValidDT j.updated_at)
    (hs : ∀ t, j.scheduled_for = some t → pyValidDT t) :
    Job.from_dict freshId now j.to_dict = some j := by
  cases j with
  | mk id name description payload status priority created_at updated_at
      scheduled_for attempts max_retries error routing_key =>
    simp only at hid hca hua hs
    cases scheduled_for with
    | none =>
        simp [Job.to_dict, Job.from_dict, optTimestampField, PyDict.lookup,
          reqStr, isoformat_ne_empty, PyValue.asStr, PyValue.asDict, PyValue.asInt,
          statusOfValue_value, priorityOfValue_value,
          parseTimestamp_isoformat _ hca, parseTimestamp_isoformat _ hua,
          mkJob, hid]
    | some t =>
        have hvt := hs t rfl
        simp [Job.to_dict, Job.from_dict, optTimestampField, PyDict.lookup,
          reqStr, isoformat_ne_empty, PyValue.asStr, PyValue.asDict, PyValue.asInt,
          statusOfValue_value, priorityOfValue_value, truthy_isoformat,
          parseTimestamp_isoformat _ hca, parseTimestamp_isoformat _ hua,
          parseTimestamp_isoformat _ hvt, mkJob, hid]

/-- Round trip of the JobResult encoding holds when the result field is
within its Optional[Dict] annotation and not the falsy empty dict. -/
theorem jobResult_from_to_dict (now : PyDateTime) (r : JobResult)
    (hca : pyValidDT r.completed_at)
    (hres : r.result = none ∨
      ∃ fs, r.result = some (PyValue.dict fs) ∧ fs ≠ PyDict.nil) :
    JobResult.from_dict now r.to_dict = some r := by
  cases r with
  | mk job_id status result error completed_at duration_ms =>
    simp only at hca hres
    have herr : error = "" ∨ error ≠ "" := by tauto
    rcases hres with hres | ⟨fs, hres, hfs⟩ <;> subst hres <;>
      rcases herr with herr | herr
    · subst herr
      simp [JobResult.to_dict, JobResult.from_dict, optTimestampField,
        PyDict.lookup, reqStr, isoformat_ne_empty, PyValue.asStr, PyValue.asInt, resultFallback,
        statusOfValue_value, truthy_isoformat,
        parseTimestamp_isoformat _ hca, mkJobResult, pyInt]
    · simp [JobResult.to_dict, JobResult.from_dict, optTimestampField,
        PyDict.lookup, reqStr, isoformat_ne_empty, PyValue.asStr, PyValue.asInt, resultFallback,
        statusOfValue_value, truthy_isoformat,
        parseTimestamp_isoformat _ hca, mkJobResult, pyInt, herr]
    · subst herr
      cases fs with
      | nil => exact absurd rfl hfs
      | cons k v t =>
          simp [JobResult.to_dict, JobResult.from_dict, optTimestampField,
            PyDict.lookup, reqStr, isoformat_ne_empty, PyValue.asStr, PyValue.asInt, resultFallback,
            statusOfValue_value, truthy_isoformat, PyValue.truthy,
            PyDict.isEmpty, parseTimestamp_isoformat _ hca, mkJobResult, pyInt]
    · cases fs with
      | nil => exact absurd rfl hfs
      | cons k v t =>
          simp [JobResult.to_dict, JobResult.from_dict, optTimestampField,
            PyDict.lookup, reqStr, isoformat_ne_empty, PyValue.asStr, PyValue.asInt, resultFallback,
            statusOfValue_value, truthy_isoformat, PyValue.truthy,
            PyDict.isEmpty, parseTimestamp_isoformat _ hca, mkJobResult,
            pyInt, herr]

/-- Association-list update (replace the first binding or append). -/
def setA {α : Type} : List (String × α) → String → α → List (String × α)
  | [], k, v => [(k, v)]
  | (k0, v0) :: t, k, v =>
      if k0 = k then (k, v) :: t else (k0, v0) :: setA t k v

/-- Association-list read. -/
def getA {α : Type} : List (String × α) → String → Option α
  | [], _ => none
  | (k0, v) :: t, k => if k0 = k then some v else getA t k

/-- Association-list removal of a key. -/
def delA {α : Type} : List (String × α) → String → List (String × α)
  | [], _ => []
  | (k0, v) :: t, k => if k0 = k then delA t k else (k0, v) :: delA t k

/-- State of the Redis instance as used by this SDK: plain keys holding
encoded job records, lists (the priority queues), sorted sets (the
scheduled queue), hashes (result records) and per-key TTLs in
seconds. -/
structure RStore where
  kv : List (String × PyValue)
  lists : List (String × List String)
  zsets : List (String × List (String × ℚ))
  hashes : List (String × List (String × String))
  ttls : List (String × Int)
deriving DecidableEq, Repr

/-- The empty store. -/
def RStore.empty : RStore := ⟨[], [], [], [], []⟩

/-- Models GET. -/
def RStore.rget (st : RStore) (k : String) : Option PyValue := getA st.kv k

/-- Models SET without expiry options: binds the key and clears any
previously set TTL, as Redis SET does. -/
def RStore.rset (st : RStore) (k : String) (v : PyValue) : RStore :=
  { st with kv := setA st.kv k v, ttls := delA st.ttls k }

/-- Models LPUSH of one element: prepends to the head (left end) of the
list stored at the key. -/
def RStore.lpush (st : RStore) (k x : String) : RStore :=
  { st with lists := setA st.lists k (x :: (getA st.lists k).getD []) }

/-- Models ZADD of one member with its score. -/
def RStore.zadd (st : RStore) (k member : String) (score : ℚ) : RStore :=
  { st with
    zsets := setA st.zsets k (setA ((getA st.zsets k).getD []) member score) }

/-- Models HSET with a field mapping. -/
def RStore.hsetMany (st : RStore) (k : String)
    (fields : List (String × String)) : RStore :=
  { st with
    hashes := setA st.hashes k
      (fields.foldl (fun m p => setA m p.1 p.2) ((getA st.hashes k).getD [])) }

/-- Models EXPIRE in seconds. -/
def RStore.expire (st : RStore) (k : String) (secs : Int) : RStore :=
  { st with ttls := setA st.ttls k secs }

/-- Models HGETALL: the empty mapping doubles as the missing key, as in
Redis. -/
def RStore.hgetall (st : RStore) (k : String) : List (String × String) :=
  (getA st.hashes k).getD []

/-- Store commands, recorded to witness what an operation issued and in
which order. -/
inductive ROp where
  | set (key : String) (value : PyValue)
  | lpush (key : String) (element : String)
  | zadd (key : String) (member : String) (score : ℚ)
  | hset (key : String) (fields : List (String × String))
  | expire (key : String) (seconds : Int)
deriving DecidableEq, Repr

/-- Observable effects of a backend call: single commands, one atomic
pipeline batch, or a pub/sub publish. -/
inductive REvent where
  | command (op : ROp)
  | pipelineExec (ops : List ROp)
  | publish (channel : String) (message : String)
deriving DecidableEq, Repr

/-- Error taxonomy of the SDK as raised by queue.py and
result_backend.py (exceptions.py): connection failures, the two
deserialization kinds, and the client-side ValueError of
enqueue_scheduled. -/
inductive BErr where
  | connection (msg : String)
  | jobNotFound (msg : String)
  | resultNotFound (msg : String)
  | valueError (msg : String)
deriving DecidableEq, Repr

/-- Job record key {prefix}:job:{id}. -/
def jobKey (pfx id : String) : String := pfx ++ ":job:" ++ id

/-- Priority queue key {prefix}:queue:{priority}. -/
def queueKey (pfx : String) (p : JobPriority) : String :=
  pfx ++ ":queue:" ++ p.value

/-- Scheduled set key {prefix}:queue:scheduled. -/
def scheduledKey (pfx : String) : String := pfx ++ ":queue:scheduled"

/-- Result hash key {prefix}:result:{job_id}. -/
def resultKey (pfx id : String) : String := pfx ++ ":result:" ++ id

/-- Result notification channel {prefix}:result:notify:{job_id}. -/
def notifyChannel (pfx id : String) : String :=
  pfx ++ ":result:notify:" ++ id

/-- Days between a Gregorian civil date (year ≥ 1) and the Unix epoch,
the standard days-from-civil computation underlying
datetime.timestamp(). -/
def daysFromCivil (y m d : Nat) : Int :=
  let y2 := if m ≤ 2 then y - 1 else y
  let era := y2 / 400
  let yoe := y2 - era * 400
  let mp := (m + 9) % 12
  let doy := (153 * mp + 2) / 5 + d - 1
  let doe := yoe * 365 + yoe / 4 - yoe / 100 + doy
  (era * 146097 + doe : Int) - 719468

/-- Models datetime.timestamp() for an aware UTC datetime: Unix epoch
seconds as an exact rational (Python returns a float). -/
def pyTimestamp (t : PyDateTime) : ℚ :=
  ((daysFromCivil t.year.val t.month.val t.day.val * 86400
    + (t.hour.val : Int) * 3600 + (t.minute.val : Int) * 60
    + (t.second.val : Int) : Int) : ℚ)
  + (t.microsecond.val : ℚ) / 1000000

/-- Models RedisQueue.enqueue: SET the encoded job record under the job
key, then LPUSH the job id onto the priority queue list.  The store in
this model does not fail; connection errors are out of the modelled
state. -/
def enqueue (pfx : String) (st : RStore) (j : Job) : RStore × List REvent :=
  let st1 := st.rset (jobKey pfx j.id) (.dict j.to_dict)
  let st2 := st1.lpush (queueKey pfx j.priority) j.id
  (st2, [.command (.set (jobKey pfx j.id) (.dict j.to_dict)),
         .command (.lpush (queueKey pfx j.priority) j.id)])

/-- Models RedisQueue.enqueue_scheduled: the scheduled_for precondition
is checked before any store command; then SET the record and ZADD the
id with the due time as score. -/
def enqueue_scheduled (pfx : String) (st : RStore) (j : Job) :
    Except BErr (RStore × List REvent) :=
  match j.scheduled_for with
  | none =>
      .error (.valueError
        "Job must have scheduled_for set to enqueue to scheduled queue")
  | some t =>
      let st1 := st.rset (jobKey pfx j.id) (.dict j.to_dict)
      let st2 := st1.zadd (scheduledKey pfx) j.id (pyTimestamp t)
      .ok (st2, [.command (.set (jobKey pfx j.id) (.dict j.to_dict)),
                 .command (.zadd (scheduledKey pfx) j.id (pyTimestamp t))])

/-- Models RedisQueue.get_job: an absent key is the explicit not-found
outcome; a present value that fails to decode raises
JobNotFoundError. -/
def get_job (pfx freshId : String) (now : PyDateTime) (st : RStore)
    (job_id : String) : Except BErr (Option Job) :=
  match st.rget (jobKey pfx job_id) with
  | none => .ok none
  | some v =>
      match v with
      | .dict data =>
          match Job.from_dict freshId now data with
          | some j => .ok (some j)
          | none => .error (.jobNotFound "Failed to deserialize job")
      | _ => .error (.jobNotFound "Failed to deserialize job")

/-- Result backend configuration: TTLs in whole seconds (the source
holds timedeltas and converts through int(ttl.total_seconds());
defaults 3600 and 86400) and the key prefix. -/
structure BackendCfg where
  success_ttl : Int
  failure_ttl : Int
  pfx : String
deriving DecidableEq, Repr

/-- Models the result-hash construction in set_result: status,
completed_at and duration_ms always; result only when truthy; error
only when non-empty. -/
def resultData (r : JobResult) : List (String × String) :=
  [("status", r.status.value), ("completed_at", isoformat r.completed_at),
   ("duration_ms", toString r.duration_ms)] ++
  (if pyOptTruthy r.result then [("result", jsonDumps (r.result.getD .null))]
   else []) ++
  (if r.error != "" then [("error", r.error)] else [])

/-- Models RedisResultBackend.set_result: one pipelined HSET + EXPIRE
batch with the outcome-dependent TTL, then a publish of the status
string on the notification channel. -/
def set_result (cfg : BackendCfg) (st : RStore) (r : JobResult) :
    RStore × List REvent :=
  let rkey := resultKey cfg.pfx r.job_id
  let fields := resultData r
  let ttl : Int := if r.is_success then cfg.success_ttl else cfg.failure_ttl
  let st1 := (st.hsetMany rkey fields).expire rkey ttl
  (st1, [.pipelineExec [.hset rkey fields, .expire rkey ttl],
         .publish (notifyChannel cfg.pfx r.job_id) r.status.value])

/-- The result dict that get_result assembles from the decoded hash
fields: the requested job id, the (present) status, completed_at when
stored (None when missing), duration_ms defaulting to "0", and result /
error only when stored. -/
def resultHashDict (job_id stS : String) (data : List (String × String)) :
    PyDict :=
  let tail0 : PyDict :=
    match getA data "error" with
    | some e => .cons "error" (.str e) .nil
    | none => .nil
  let tail1 : PyDict :=
    match getA data "result" with
    | some rs => .cons "result" (.str rs) tail0
    | none => tail0
  .cons "job_id" (.str job_id) (.cons "status" (.str stS)
    (.cons "completed_at"
      (match getA data "completed_at" with
       | some s => .str s
       | none => .null)
      (.cons "duration_ms" (.str ((getA data "duration_ms").getD "0"))
        tail1)))

/-- Models RedisResultBackend.get_result: empty hash is the not-found
outcome; otherwise the hash fields are repackaged into a result dict
keyed by the requested job id and decoded, and any decoding failure
raises ResultNotFoundError. -/
def get_result (cfg : BackendCfg) (now : PyDateTime) (st : RStore)
    (job_id : String) : Except BErr (Option JobResult) :=
  let data := st.hgetall (resultKey cfg.pfx job_id)
  if data.isEmpty then .ok none
  else
    match getA data "status" with
    | none => .error (.resultNotFound "Failed to deserialize result")
    | some stS =>
        match JobResult.from_dict now (resultHashDict job_id stS data) with
        | some r => .ok (some r)
        | none => .error (.resultNotFound "Failed to deserialize result")

/-- Pub/sub lifecycle events of wait_for_result. -/
inductive SubEvent where
  | subscribe | getMessage | close
deriving DecidableEq, Repr

/-- One iteration of the wait loop as admitted by the while condition
before the deadline: the message slot of pubsub.get_message (none for
no message or a non-message control frame), whether the 500ms grace
period has elapsed at the re-check point, and a snapshot of the store
and clock at that moment. -/
structure WaitStep where
  message : Option String
  pastGrace : Bool
  store : RStore
  now : PyDateTime
deriving DecidableEq, Repr

/-- Models the polling loop of wait_for_result over the iterations the
timeout admits; exhausting the iterations is the timeout, returning the
explicit empty outcome. -/
def waitLoop (cfg : BackendCfg) (job_id : String) :
    List WaitStep → Except BErr (Option JobResult) × List SubEvent
  | [] => (.ok none, [])
  | step :: rest =>
      match step.message with
      | some _ => (get_result cfg step.now step.store job_id, [.getMessage])
      | none =>
          if step.pastGrace then
            match get_result cfg step.now step.store job_id with
            | .ok (some r) => (.ok (some r), [.getMessage])
            | .ok none =>
                let p := waitLoop cfg job_id rest
                (p.1, .getMessage :: p.2)
            | .error e => (.error e, [.getMessage])
          else
            let p := waitLoop cfg job_id rest
            (p.1, .getMessage :: p.2)

/-- Models RedisResultBackend.wait_for_result: an immediate get_result
first (truthy result returns, an exception propagates before any
subscribe), then subscribe, run the polling loop, and close the pubsub
handle in a finally block on every exit path after the subscribe. -/
def wait_for_result (cfg : BackendCfg) (job_id : String) (now0 : PyDateTime)
    (st0 : RStore) (steps : List WaitStep) :
    Except BErr (Option JobResult) × List SubEvent :=
  match get_result cfg now0 st0 job_id with
  | .error e => (.error e, [])
  | .ok (some r) => (.ok (some r), [])
  | .ok none =>
      let p := waitLoop cfg job_id steps
      (p.1, .subscribe :: p.2 ++ [.close])

/-- The Job constructed by Client.submit_job (and submit_and_wait):
defaults give status PENDING and no scheduled_for. -/
def clientJob (freshId : String) (now : PyDateTime) (name : String)
    (payload : PyDict) (priority : JobPriority)
    (description routing_key : String) : Job :=
  mkJob freshId now name payload priority description none .pending
    none none none 0 3 "" routing_key

/-- The Job constructed by Client.submit_job_scheduled: status SCHEDULED
with the given due time. -/
def clientScheduledJob (freshId : String) (now : PyDateTime) (name : String)
    (payload : PyDict) (priority : JobPriority) (scheduled_for : PyDateTime)
    (description routing_key : String) : Job :=
  mkJob freshId now name payload priority description none .scheduled
    none none (some scheduled_for) 0 3 "" routing_key

/-- Models Client.submit_job: construct the job and enqueue it,
returning its id. -/
def submit_job (pfx : String) (st : RStore) (freshId : String)
    (now : PyDateTime) (name : String) (payload : PyDict)
    (priority : JobPriority) (description routing_key : String) :
    String × RStore × List REvent :=
  let j := clientJob freshId now name payload priority description routing_key
  let p := enqueue pfx st j
  (j.id, p.1, p.2)

/-- Models Client.submit_job_with_route, a delegation to submit_job. -/
def submit_job_with_route (pfx : String) (st : RStore) (freshId : String)
    (now : PyDateTime) (name : String) (payload : PyDict)
    (priority : JobPriority) (routing_key description : String) :
    String × RStore × List REvent :=
  submit_job pfx st freshId now name payload priority description routing_key

/-- Models Client.submit_job_scheduled: construct the SCHEDULED job and
enqueue it on the scheduled queue. -/
def submit_job_scheduled (pfx : String) (st : RStore) (freshId : String)
    (now : PyDateTime) (name : String) (payload : PyDict)
    (priority : JobPriority) (scheduled_for : PyDateTime)
    (description routing_key : String) :
    Except BErr (String × RStore × List REvent) :=
  let j := clientScheduledJob freshId now name payload priority scheduled_for
    description routing_key
  match enqueue_scheduled pfx st j with
  | .ok p => .ok (j.id, p.1, p.2)
  | .error e => .error e

/-- Models Client.submit_and_wait: construct a PENDING job, enqueue it,
then wait for its result. -/
def submit_and_wait (pfx : String) (cfg : BackendCfg) (st : RStore)
    (freshId : String) (now : PyDateTime) (name : String) (payload : PyDict)
    (priority : JobPriority) (description routing_key : String)
    (steps : List WaitStep) : Except BErr (Option JobResult) × List SubEvent :=
  let j := clientJob freshId now name payload priority description routing_key
  let p := enqueue pfx st j
  wait_for_result cfg j.id now p.1 steps

theorem getA_setA_self {α : Type} (l : List (String × α)) (k : String)
    (v : α) : getA (setA l k v) k = some v := by
  induction l with
  | nil => simp [setA, getA]
  | cons p t ih =>
      obtain ⟨k0, v0⟩ := p
      by_cases h : k0 = k <;> simp [setA, getA, h, ih]

theorem getA_delA_self {α : Type} (l : List (String × α)) (k : String) :
    getA (delA l k) k = none := by
  induction l with
  | nil => simp [delA, getA]
  | cons p t ih =>
      obtain ⟨k0, v0⟩ := p
      by_cases h : k0 = k <;> simp [delA, getA, h, ih]

/-- Fixed sample datetime 2024-01-02T03:04:05+00:00. -/
def dt0 : PyDateTime :=
  { year := 2024, month := 1, day := 2, hour := 3, minute := 4, second := 5,
    microsecond := 0 }

/-- Fixed sample datetime with nonzero microseconds. -/
def dt1 : PyDateTime :=
  { year := 2023, month := 12, day := 31, hour := 23, minute := 59,
    second := 58, microsecond := 123456 }

/-- Claim C2 as the spec states it: enqueue stores the record under the
job key with no expiry and APPENDS the job id to the TAIL of the
priority list.  This definition follows the words of the spec, to be
compared with the behavior of the source embedding. -/
def enqueueAppendsTail (pfx : String) (st : RStore) (j : Job) : Prop :=
  getA (enqueue pfx st j).1.kv (jobKey pfx j.id) = some (.dict j.to_dict) ∧
  getA (enqueue pfx st j).1.ttls (jobKey pfx j.id) = none ∧
  getA (enqueue pfx st j).1.lists (queueKey pfx j.priority) =
    some (((getA st.lists (queueKey pfx j.priority)).getD []) ++ [j.id])

instance (pfx : String) (st : RStore) (j : Job) :
    Decidable (enqueueAppendsTail pfx st j) := by
  unfold enqueueAppendsTail; infer_instance

/-- Store with one element already queued at high priority. -/
def c2_store : RStore :=
  { kv := [], lists := [("bananas:queue:high", ["a"])], zsets := [],
    hashes := [], ttls := [] }

/-- Job enqueued into the occupied high-priority queue. -/
def c2_job : Job :=
  { id := "b", name := "n", description := "", payload := .nil,
    status := .pending, priority := .high, created_at := dt0,
    updated_at := dt0, scheduled_for := none, attempts := 0, max_retries := 3,
    error := "", routing_key := "" }

/-- C2 counterexample: the code LPUSHes the new id to the head of the
priority list, so on a queue already holding "a" the enqueued id "b"
ends up first, not appended at the tail as the claim states. -/
theorem claim_C2_counterexample : ¬ enqueueAppendsTail "bananas" c2_store c2_job := by
  decide

/-- C2 amended: enqueue writes the serialized record under
{prefix}:job:{id} with no expiry and then pushes the job id onto the
HEAD of the priority list {prefix}:queue:{p}, p the lowercase priority
tag, record write first. -/
theorem claim_C2 (pfx : String) (st : RStore) (j : Job) :
    getA (enqueue pfx st j).1.kv (pfx ++ ":job:" ++ j.id) =
      some (.dict j.to_dict) ∧
    getA (enqueue pfx st j).1.ttls (pfx ++ ":job:" ++ j.id) = none ∧
    getA (enqueue pfx st j).1.lists (pfx ++ ":queue:" ++ j.priority.value) =
      some (j.id ::
        ((getA st.lists (pfx ++ ":queue:" ++ j.priority.value)).getD [])) ∧
    (enqueue pfx st j).2 =
      [.command (.set (pfx ++ ":job:" ++ j.id) (.dict j.to_dict)),
       .command (.lpush (pfx ++ ":queue:" ++ j.priority.value) j.id)] := by
  refine ⟨?_, ?_, ?_, rfl⟩ <;>
    simp [enqueue, RStore.rset, RStore.lpush, jobKey, queueKey,
      getA_setA_self, getA_delA_self]

/-- C4: set_result always writes status, completed_at and duration_ms,
writes result only when truthy and error only when non-empty, applies
the success TTL exactly when the status is COMPLETED and the failure
TTL otherwise, and issues one atomic HSET+EXPIRE batch followed by the
publish on the notification channel. -/
theorem claim_C4 (cfg : BackendCfg) (st : RStore) (r : JobResult) :
    getA (resultData r) "status" = some r.status.value ∧
    getA (resultData r) "completed_at" = some (isoformat r.completed_at) ∧
    getA (resultData r) "duration_ms" = some (toString r.duration_ms) ∧
    (getA (resultData r) "result").isSome = pyOptTruthy r.result ∧
    (getA (resultData r) "error").isSome = (r.error != "") ∧
    (r.is_success = true ↔ r.status = .completed) ∧
    getA (set_result cfg st r).1.ttls (cfg.pfx ++ ":result:" ++ r.job_id) =
      some (if r.is_success then cfg.success_ttl else cfg.failure_ttl) ∧
    (set_result cfg st r).2 =
      [.pipelineExec
         [.hset (cfg.pfx ++ ":result:" ++ r.job_id) (resultData r),
          .expire (cfg.pfx ++ ":result:" ++ r.job_id)
            (if r.is_success then cfg.success_ttl else cfg.failure_ttl)],
       .publish (cfg.pfx ++ ":result:notify:" ++ r.job_id) r.status.value] := by
  refine ⟨?_, ?_, ?_, ?_, ?_, ?_, ?_, rfl⟩
  · by_cases hres : pyOptTruthy r.result <;>
      by_cases herr : r.error != "" <;>
        simp [resultData, getA, hres, herr]
  · by_cases hres : pyOptTruthy r.result <;>
      by_cases herr : r.error != "" <;>
        simp [resultData, getA, hres, herr]
  · by_cases hres : pyOptTruthy r.result <;>
      by_cases herr : r.error != "" <;>
        simp [resultData, getA, hres, herr]
  · by_cases hres : pyOptTruthy r.result <;>
      by_cases herr : r.error != "" <;>
        simp [resultData, getA, hres, herr]
  · by_cases hres : pyOptTruthy r.result <;>
      by_cases herr : r.error != "" <;>
        simp [resultData, getA, hres, herr]
  · simp [JobResult.is_success]
  · simp [set_result, RStore.expire, resultKey, getA_setA_self]

/-- Recognizer for the aware-UTC ISO-8601 timestamp strings of this
protocol. -/
def isIso8601UTC (s : String) : Bool := (parseIsoChars s.data).isSome

/-- C5: the record stored by enqueue under {prefix}:job:{id} is the
structured encoding with exactly the twelve fixed fields in order plus
scheduled_for only when set, with lowercase status/priority tags and
ISO-8601 UTC timestamp strings. -/
theorem claim_C5 (pfx : String) (st : RStore) (j : Job)
    (hca : pyValidDT j.created_at) (hua : pyValidDT j.updated_at)
    (hs : ∀ t, j.scheduled_for = some t → pyValidDT t) :
    getA (enqueue pfx st j).1.kv (pfx ++ ":job:" ++ j.id) =
      some (.dict j.to_dict) ∧
    j.to_dict.keys =
      ["id", "name", "description", "payload", "status", "priority",
       "created_at", "updated_at", "attempts", "max_retries", "error",
       "routing_key"] ++
      (match j.scheduled_for with
       | some _ => ["scheduled_for"]
       | none => []) ∧
    j.to_dict.lookup "status" = some (.str j.status.value) ∧
    j.status.value ∈
      ["pending", "processing", "completed", "failed", "scheduled"] ∧
    j.to_dict.lookup "priority" = some (.str j.priority.value) ∧
    j.priority.value ∈ ["high", "normal", "low"] ∧
    j.to_dict.lookup "created_at" = some (.str (isoformat j.created_at)) ∧
    isIso8601UTC (isoformat j.created_at) = true ∧
    j.to_dict.lookup "updated_at" = some (.str (isoformat j.updated_at)) ∧
    isIso8601UTC (isoformat j.updated_at) = true ∧
    (match j.scheduled_for with
     | some t =>
         j.to_dict.lookup "scheduled_for" = some (.str (isoformat t)) ∧
         isIso8601UTC (isoformat t) = true
     | none => j.to_dict.lookup "scheduled_for" = none) := by
  refine ⟨?_, ?_, ?_, ?_, ?_, ?_, ?_, ?_, ?_, ?_, ?_⟩
  · simp [enqueue, RStore.rset, RStore.lpush, jobKey, getA_setA_self]
  · cases hsf : j.scheduled_for <;> simp [Job.to_dict, PyDict.keys, hsf]
  · cases hsf : j.scheduled_for <;> simp [Job.to_dict, PyDict.lookup, hsf]
  · cases j.status <;> simp [JobStatus.value]
  · cases hsf : j.scheduled_for <;> simp [Job.to_dict, PyDict.lookup, hsf]
  · cases j.priority <;> simp [JobPriority.value]
  · cases hsf : j.scheduled_for <;> simp [Job.to_dict, PyDict.lookup, hsf]
  · simp [isIso8601UTC, isoformat, parse_isoformat j.created_at hca]
  · cases hsf : j.scheduled_for <;> simp [Job.to_dict, PyDict.lookup, hsf]
  · simp [isIso8601UTC, isoformat, parse_isoformat j.updated_at hua]
  · cases hsf : j.scheduled_for with
    | none => simp [Job.to_dict, PyDict.lookup, hsf]
    | some t =>
        refine ⟨by simp [Job.to_dict, PyDict.lookup, hsf], ?_⟩
        simp [isIso8601UTC, isoformat, parse_isoformat t (hs t hsf)]

/-- C7: enqueue_scheduled fails with the validation error before any
store command when scheduled_for is unset, and otherwise writes the
record and adds the id to the scheduled sorted set with the epoch
seconds of the due time as score. -/
theorem claim_C7 (pfx : String) (st : RStore) (j : Job) :
    (j.scheduled_for = none →
      enqueue_scheduled pfx st j =
        .error (.valueError
          "Job must have scheduled_for set to enqueue to scheduled queue")) ∧
    (∀ t, j.scheduled_for = some t →
      ∃ st2 evs, enqueue_scheduled pfx st j = .ok (st2, evs) ∧
        getA st2.kv (pfx ++ ":job:" ++ j.id) = some (.dict j.to_dict) ∧
        getA ((getA st2.zsets (pfx ++ ":queue:scheduled")).getD []) j.id =
          some (pyTimestamp t) ∧
        evs = [.command (.set (pfx ++ ":job:" ++ j.id) (.dict j.to_dict)),
               .command (.zadd (pfx ++ ":queue:scheduled") j.id
                 (pyTimestamp t))]) := by
  constructor
  · intro hn
    simp [enqueue_scheduled, hn]
  · intro t ht
    refine ⟨(st.rset (jobKey pfx j.id) (.dict j.to_dict)).zadd
        (scheduledKey pfx) j.id (pyTimestamp t),
      [.command (.set (jobKey pfx j.id) (.dict j.to_dict)),
       .command (.zadd (scheduledKey pfx) j.id (pyTimestamp t))],
      ?_, ?_, ?_, ?_⟩
    · simp [enqueue_scheduled, ht]
    · simp [RStore.zadd, RStore.rset, jobKey, getA_setA_self]
    · simp [RStore.zadd, RStore.rset, scheduledKey, getA_setA_self]
    · simp [jobKey, scheduledKey]

/-- Job built directly through the constructor with a due time but a
non-SCHEDULED status, which Job.__init__ accepts unchecked. -/
def c8_job : Job :=
  mkJob "f" dt0 "n" .nil .normal "" none .pending none none (some dt0) 0 3 "" ""

/-- C8 counterexample: the Job constructor enforces no tie between
scheduled_for and SCHEDULED, so a Job created with a due time and
status PENDING violates the claimed iff. -/
theorem claim_C8_counterexample :
    ¬ (c8_job.scheduled_for ≠ none ↔ c8_job.status = .scheduled) := by
  decide

/-- C8 amended: every Job created through the Client submission APIs
(submit_job / submit_job_with_route / submit_and_wait build PENDING
jobs with no due time, submit_job_scheduled builds SCHEDULED jobs with
one) satisfies: scheduled_for is set iff the status is SCHEDULED; the
bare constructor does not enforce this. -/
theorem claim_C8 (freshId : String) (now : PyDateTime) (name : String)
    (payload : PyDict) (priority : JobPriority)
    (description routing_key : String) (scheduled_for : PyDateTime) :
    ((clientJob freshId now name payload priority description
        routing_key).scheduled_for ≠ none ↔
      (clientJob freshId now name payload priority description
        routing_key).status = .scheduled) ∧
    ((clientScheduledJob freshId now name payload priority scheduled_for
        description routing_key).scheduled_for ≠ none ↔
      (clientScheduledJob freshId now name payload priority scheduled_for
        description routing_key).status = .scheduled) := by
  constructor <;> simp [clientJob, clientScheduledJob, mkJob]

/-- JobResult whose result is the empty dict, a valid empty payload. -/
def c3_result : JobResult :=
  { job_id := "j", status := .completed, result := some (.dict .nil),
    error := "", completed_at := dt0, duration_ms := 1500 }

/-- C3 counterexample: to_dict omits a falsy result, so a JobResult
carrying the empty dict as its result decodes back with result absent,
not equal in every field to the original. -/
theorem claim_C3_counterexample :
    JobResult.from_dict dt0 (JobResult.to_dict c3_result) ≠ some c3_result := by
  decide

/-- C3 amended: decode after encode is the identity for every
constructible Job (non-empty id, calendar-valid timestamps) and for
every JobResult whose result stays within its Optional[Dict] annotation
and is not the empty dict; an empty (or absent) result decodes back as
absent. -/
theorem claim_C3 :
    (∀ (freshId : String) (now : PyDateTime) (j : Job), j.id ≠ "" →
      pyValidDT j.created_at → pyValidDT j.updated_at →
      (∀ t, j.scheduled_for = some t → pyValidDT t) →
      Job.from_dict freshId now j.to_dict = some j) ∧
    (∀ (now : PyDateTime) (r : JobResult), pyValidDT r.completed_at →
      (r.result = none ∨
        ∃ fs, r.result = some (PyValue.dict fs) ∧ fs ≠ PyDict.nil) →
      JobResult.from_dict now r.to_dict = some r) :=
  ⟨fun freshId now j h1 h2 h3 h4 =>
     job_from_to_dict freshId now j h1 h2 h3 h4,
   fun now r h1 h2 => jobResult_from_to_dict now r h1 h2⟩

/-- Job with a Unicode, nested payload and a scheduled time, used to
evaluate the round trip concretely. -/
def c3_job : Job :=
  { id := "abc-123", name := "send_email", description := "déscription",
    payload := .cons "to" (.str "ü@example.com")
      (.cons "n" (.int 3)
        (.cons "nested"
          (.dict (.cons "xs" (.list (.cons (.int 1) (.cons .null .nil)))
            .nil))
          .nil)),
    status := .scheduled, priority := .high, created_at := dt1,
    updated_at := dt0, scheduled_for := some dt0, attempts := 0,
    max_retries := 3, error := "", routing_key := "gpu" }

/-- JobResult with a non-empty dict result, used to evaluate the round
trip concretely. -/
def c3_okres : JobResult :=
  { job_id := "j", status := .failed,
    result := some (.dict (.cons "output" (.str "success") .nil)),
    error := "boom", completed_at := dt1, duration_ms := 1500 }

theorem claim_C3_witness :
    Job.from_dict "fresh" dt0 c3_job.to_dict = some c3_job ∧
    JobResult.from_dict dt0 c3_okres.to_dict = some c3_okres :=
  ⟨claim_C3.1 "fresh" dt0 c3_job (by decide) (by decide) (by decide)
     (fun t ht => (Option.some.inj ht) ▸ (by decide : pyValidDT dt0)),
   claim_C3.2 dt0 c3_okres (by decide) (Or.inr ⟨_, rfl, by decide⟩)⟩

theorem from_dict_job_id (now : PyDateTime) (data : PyDict) (r : JobResult)
    (h : JobResult.from_dict now data = some r) :
    reqStr data "job_id" = some r.job_id := by
  unfold JobResult.from_dict at h
  cases hc : optTimestampField data "completed_at" with
  | none => rw [hc] at h; simp at h
  | some completed =>
    rw [hc] at h
    cases hj : reqStr data "job_id" with
    | none => rw [hj] at h; simp at h
    | some jid =>
      rw [hj] at h
      cases hst : (reqStr data "status").bind JobStatus.ofValue with
      | none => rw [hst] at h; simp at h
      | some status =>
        rw [hst] at h
        cases he : ((data.lookup "error").getD (.str "")).asStr with
        | none => rw [he] at h; simp at h
        | some error =>
          rw [he] at h
          cases hd : pyInt ((data.lookup "duration_ms").getD (.int 0)) with
          | none => rw [hd] at h; simp at h
          | some dur =>
            rw [hd] at h
            simp only [Option.some.injEq] at h
            subst h
            simp [mkJobResult, hj]

/-- C10: whenever get_result returns a JobResult, its job_id equals the
requested id, whatever the stored hash contains. -/
theorem claim_C10 (cfg : BackendCfg) (now : PyDateTime) (st : RStore)
    (job_id : String) (r : JobResult)
    (h : get_result cfg now st job_id = .ok (some r)) : r.job_id = job_id := by
  simp only [get_result] at h
  split at h
  · exact absurd h (by simp)
  · split at h
    · exact absurd h (by simp)
    · rename_i stS hstS
      split at h
      · rename_i r0 hfd
        have hr : r0 = r := by simpa using h
        subst hr
        have h2 := from_dict_job_id _ _ _ hfd
        simp [reqStr, resultHashDict, PyDict.lookup, PyValue.asStr] at h2
        exact h2.symm
      · exact absurd h (by simp)

/-- C6: get_job and get_result return the explicit not-found outcome
(ok none) for an absent key or empty hash, and report undecodable
stored data as the distinct deserialization error of their module. -/
theorem claim_C6 (pfx freshId : String) (now : PyDateTime) (st : RStore)
    (id : String) (cfg : BackendCfg) :
    (st.rget (pfx ++ ":job:" ++ id) = none →
      get_job pfx freshId now st id = .ok none) ∧
    (∀ v, st.rget (pfx ++ ":job:" ++ id) = some v →
      ((∃ d, v = PyValue.dict d ∧ Job.from_dict freshId now d = none) ∨
        (∀ d, v ≠ PyValue.dict d)) →
      get_job pfx freshId now st id =
        .error (.jobNotFound "Failed to deserialize job")) ∧
    (st.hgetall (cfg.pfx ++ ":result:" ++ id) = [] →
      get_result cfg now st id = .ok none) ∧
    (∀ data, st.hgetall (cfg.pfx ++ ":result:" ++ id) = data → data ≠ [] →
      (getA data "status" = none ∨
        (∃ stS, getA data "status" = some stS ∧
          JobResult.from_dict now (resultHashDict id stS data) = none)) →
      get_result cfg now st id =
        .error (.resultNotFound "Failed to deserialize result")) := by
  refine ⟨?_, ?_, ?_, ?_⟩
  · intro h
    simp [get_job, jobKey, h]
  · intro v hv hfail
    rcases hfail with ⟨d, rfl, hfd⟩ | hnd
    · simp [get_job, jobKey, hv, hfd]
    · cases v with
      | dict d => exact absurd rfl (hnd d)
      | null => simp [get_job, jobKey, hv]
      | bool b => simp [get_job, jobKey, hv]
      | int n => simp [get_job, jobKey, hv]
      | str s => simp [get_job, jobKey, hv]
      | list xs => simp [get_job, jobKey, hv]
  · intro h
    simp [get_result, resultKey, h]
  · intro data hdata hne hcond
    have hne2 : data.isEmpty = false := by
      cases data with
      | nil => exact absurd rfl hne
      | cons p t => rfl
    rcases hcond with hst | ⟨stS, hst, hfd⟩
    · simp [get_result, resultKey, hdata, hne2, hst]
    · simp [get_result, resultKey, hdata, hne2, hst, hfd]

theorem waitLoop_ok_none (cfg : BackendCfg) (job_id : String)
    (steps : List WaitStep)
    (h : ∀ s ∈ steps, get_result cfg s.now s.store job_id = .ok none) :
    (waitLoop cfg job_id steps).1 = .ok none := by
  induction steps with
  | nil => rfl
  | cons s rest ih =>
      have hs := h s (List.mem_cons_self s rest)
      have hr : ∀ x ∈ rest, get_result cfg x.now x.store job_id = .ok none :=
        fun x hx => h x (List.mem_cons_of_mem s hx)
      cases hm : s.message with
      | some m => simp [waitLoop, hm, hs]
      | none =>
          by_cases hg : s.pastGrace <;> simp [waitLoop, hm, hg, hs, ih hr]

theorem waitLoop_error (cfg : BackendCfg) (job_id : String)
    (steps : List WaitStep) (e : BErr)
    (h : (waitLoop cfg job_id steps).1 = .error e) :
    ∃ s ∈ steps, get_result cfg s.now s.store job_id = .error e := by
  induction steps with
  | nil => simp [waitLoop] at h
  | cons s rest ih =>
      cases hm : s.message with
      | some m =>
          simp only [waitLoop, hm] at h
          exact ⟨s, List.mem_cons_self s rest, h⟩
      | none =>
          by_cases hg : s.pastGrace
          · cases hr : get_result cfg s.now s.store job_id with
            | ok o =>
                cases o with
                | some r0 => simp [waitLoop, hm, hg, hr] at h
                | none =>
                    simp only [waitLoop, hm, hg, if_true, hr] at h
                    obtain ⟨s2, hs2, he⟩ := ih h
                    exact ⟨s2, List.mem_cons_of_mem s hs2, he⟩
            | error e2 =>
                simp only [waitLoop, hm, hg, if_true, hr,
                  Except.error.injEq] at h
                exact ⟨s, List.mem_cons_self s rest, by rw [hr, h]⟩
          · simp only [waitLoop, hm, hg, if_false] at h
            obtain ⟨s2, hs2, he⟩ := ih h
            exact ⟨s2, List.mem_cons_of_mem s hs2, he⟩

/-- C1: when no get_result snapshot during the wait ever finds a result
and none of them fails, wait_for_result returns the explicit empty
outcome; and an error outcome always originates from some get_result
call during the wait. -/
theorem claim_C1 :
    (∀ (cfg : BackendCfg) (job_id : String) (now0 : PyDateTime)
       (st0 : RStore) (steps : List WaitStep),
       get_result cfg now0 st0 job_id = .ok none →
       (∀ s ∈ steps, get_result cfg s.now s.store job_id = .ok none) →
       (wait_for_result cfg job_id now0 st0 steps).1 = .ok none) ∧
    (∀ (cfg : BackendCfg) (job_id : String) (now0 : PyDateTime)
       (st0 : RStore) (steps : List WaitStep) (e : BErr),
       (wait_for_result cfg job_id now0 st0 steps).1 = .error e →
       get_result cfg now0 st0 job_id = .error e ∨
       ∃ s ∈ steps, get_result cfg s.now s.store job_id = .error e) := by
  constructor
  · intro cfg job_id now0 st0 steps h0 hsteps
    simp [wait_for_result, h0, waitLoop_ok_none cfg job_id steps hsteps]
  · intro cfg job_id now0 st0 steps e h
    cases h0 : get_result cfg now0 st0 job_id with
    | error e0 =>
        left
        simp only [wait_for_result, h0] at h
        exact h
    | ok o =>
        cases o with
        | some r => simp [wait_for_result, h0] at h
        | none =>
            right
            simp only [wait_for_result, h0] at h
            exact waitLoop_error _ _ _ _ h

theorem claim_C1_witness :
    (wait_for_result ⟨3600, 86400, "bananas"⟩ "j" dt0 RStore.empty
      [⟨none, false, RStore.empty, dt0⟩, ⟨none, true, RStore.empty, dt1⟩]).1 =
      .ok none :=
  claim_C1.1 ⟨3600, 86400, "bananas"⟩ "j" dt0 RStore.empty
    [⟨none, false, RStore.empty, dt0⟩, ⟨none, true, RStore.empty, dt1⟩]
    (by decide) (by decide)

theorem waitLoop_events (cfg : BackendCfg) (job_id : String)
    (steps : List WaitStep) :
    ∀ ev ∈ (waitLoop cfg job_id steps).2, ev = SubEvent.getMessage := by
  induction steps with
  | nil => simp [waitLoop]
  | cons s rest ih =>
      intro ev hev
      cases hm : s.message with
      | some m =>
          rw [show waitLoop cfg job_id (s :: rest) =
              (get_result cfg s.now s.store job_id, [.getMessage]) from by
            simp [waitLoop, hm]] at hev
          simpa using hev
      | none =>
          by_cases hg : s.pastGrace
          · cases hr : get_result cfg s.now s.store job_id with
            | ok o =>
                cases o with
                | some r0 =>
                    simp only [waitLoop, hm, hg, if_true, hr] at hev
                    simpa using hev
                | none =>
                    simp only [waitLoop, hm, hg, if_true, hr] at hev
                    rcases List.mem_cons.mp hev with h1 | h1
                    · exact h1
                    · exact ih ev h1
            | error e =>
                simp only [waitLoop, hm, hg, if_true, hr] at hev
                simpa using hev
          · simp only [waitLoop, hm, hg, if_false] at hev
            rcases List.mem_cons.mp hev with h1 | h1
            · exact h1
            · exact ih ev h1

/-- C9: the pub/sub trace of a wait_for_result run balances subscribes
against closes, and on every run that reaches the subscribe step (the
trace is non-empty) the trace starts with the subscribe and ends with
the close, whatever the outcome. -/
theorem claim_C9 (cfg : BackendCfg) (job_id : String) (now0 : PyDateTime)
    (st0 : RStore) (steps : List WaitStep) :
    ((wait_for_result cfg job_id now0 st0 steps).2.count SubEvent.subscribe =
      (wait_for_result cfg job_id now0 st0 steps).2.count SubEvent.close) ∧
    ((wait_for_result cfg job_id now0 st0 steps).2 ≠ [] →
      (wait_for_result cfg job_id now0 st0 steps).2.head? =
        some SubEvent.subscribe ∧
      (wait_for_result cfg job_id now0 st0 steps).2.getLast? =
        some SubEvent.close) := by
  cases h0 : get_result cfg now0 st0 job_id with
  | error e0 =>
      refine ⟨by simp [wait_for_result, h0], fun hne => ?_⟩
      exact absurd (by simp [wait_for_result, h0]) hne
  | ok o =>
      cases o with
      | some r =>
          refine ⟨by simp [wait_for_result, h0], fun hne => ?_⟩
          exact absurd (by simp [wait_for_result, h0]) hne
      | none =>
          have hsub : SubEvent.subscribe ∉ (waitLoop cfg job_id steps).2 :=
            fun hmem => by
              have := waitLoop_events cfg job_id steps _ hmem
              simp at this
          have hclo : SubEvent.close ∉ (waitLoop cfg job_id steps).2 :=
            fun hmem => by
              have := waitLoop_events cfg job_id steps _ hmem
              simp at this
          constructor
          · simp [wait_for_result, h0, List.count_cons, List.count_append,
              List.count_eq_zero.mpr hsub, List.count_eq_zero.mpr hclo]
          · intro hne
            constructor
            · simp [wait_for_result, h0]
            · simp only [wait_for_result, h0]
              rw [show SubEvent.subscribe :: (waitLoop cfg job_id steps).2 ++
                  [SubEvent.close] =
                  (SubEvent.subscribe :: (waitLoop cfg job_id steps).2) ++
                  [SubEvent.close] from by simp,
                List.getLast?_concat]

theorem claim_C9_witness :
    ((wait_for_result ⟨3600, 86400, "bananas"⟩ "j" dt0 RStore.empty
        [⟨none, false, RStore.empty, dt0⟩]).2 ≠ [] ∧
      (wait_for_result ⟨3600, 86400, "bananas"⟩ "j" dt0 RStore.empty
        [⟨none, false, RStore.empty, dt0⟩]).2.head? =
        some SubEvent.subscribe ∧
      (wait_for_result ⟨3600, 86400, "bananas"⟩ "j" dt0 RStore.empty
        [⟨none, false, RStore.empty, dt0⟩]).2.getLast? =
        some SubEvent.close) :=
  ⟨by decide,
   (claim_C9 ⟨3600, 86400, "bananas"⟩ "j" dt0 RStore.empty
      [⟨none, false, RStore.empty, dt0⟩]).2 (by decide)⟩

theorem claim_C5_witness :
    getA (enqueue "bananas" RStore.empty c3_job).1.kv
      ("bananas" ++ ":job:" ++ c3_job.id) = some (.dict c3_job.to_dict) ∧
    (Job.to_dict c3_job).keys =
      ["id", "name", "description", "payload", "status", "priority",
       "created_at", "updated_at", "attempts", "max_retries", "error",
       "routing_key"] ++
      (match c3_job.scheduled_for with
       | some _ => ["scheduled_for"]
       | none => []) :=
  ⟨(claim_C5 "bananas" RStore.empty c3_job (by decide) (by decide)
      (fun t ht => (Option.some.inj ht) ▸ (by decide : pyValidDT dt0))).1,
   (claim_C5 "bananas" RStore.empty c3_job (by decide) (by decide)
      (fun t ht => (Option.some.inj ht) ▸ (by decide : pyValidDT dt0))).2.1⟩

/-- Store whose result hash for key jid carries a stray job_id field
with a different value. -/
def c10_store : RStore :=
  { kv := [], lists := [], zsets := [],
    hashes := [("bananas:result:jid",
      [("job_id", "evil"), ("status", "completed"),
       ("completed_at", "2024-01-02T03:04:05+00:00"),
       ("duration_ms", "5")])],
    ttls := [] }

/-- The JobResult that get_result produces from c10_store. -/
def c10_result : JobResult :=
  { job_id := "jid", status := .completed, result := none, error := "",
    completed_at := dt0, duration_ms := 5 }

theorem claim_C10_witness : c10_result.job_id = "jid" :=
  claim_C10 ⟨3600, 86400, "bananas"⟩ dt0 c10_store "jid" c10_result (by decide)

end Bananas
